import Mathlib

/-!
Verification of the gotracer protocol core (gotracer.go).

Shallow embedding conventions:
* Go byte slices are `List Nat` with values below 256 where relevant.
* Go `float32` arithmetic in the decoder is modelled by exact rationals;
  all decoded magnitudes are small integers divided by 100.
* `uint32` accumulation in `unpack` keeps the `% 2 ^ 32` wrap of the source.
* The serial transport is modelled by a script assigning each exchange an
  outcome: the request write succeeds or fails, and the race between the
  blocking read and the 2-second timer resolves either to the read (with its
  bytes and error status) or to the timer.
* `time.Now()` is modelled by an explicit `now : Nat` parameter.
-/

namespace Gotracer

/-- One request/response descriptor of the frame table
(struct `command` in gotracer.go). -/
structure command where
  data : List Nat
  respLen : Nat
  offset : Nat
deriving DecidableEq, Repr

/-- The static ordered table of the five query commands
(`queryStateCommand` in gotracer.go). -/
def queryStateCommand : List command :=
  [⟨[0x01, 0x04, 0x32, 0x00, 0x00, 0x03, 0xbe, 0xb3], 11, 0⟩,
   ⟨[0x01, 0x02, 0x20, 0x00, 0x00, 0x01, 0xb2, 0x0a], 6, 11⟩,
   ⟨[0x01, 0x43, 0x31, 0x00, 0x00, 0x1b, 0x0a, 0xf2], 51, 17⟩,
   ⟨[0x01, 0x04, 0x33, 0x1a, 0x00, 0x03, 0x9e, 0x88], 11, 68⟩,
   ⟨[0x01, 0x04, 0x33, 0x02, 0x00, 0x12, 0xde, 0x83], 41, 79⟩]

/-- Big-endian accumulation of `unpack` in gotracer.go:
`v += uint32(b) << uint((len(slice)-1-i)*8)` over an unsigned 32-bit `v`.
The `% 2 ^ 32` keeps the uint32 wrap of the source (it never fires for the
byte slices of length at most 4 that the decoder passes in). -/
def unpack (slice : List Nat) : Nat :=
  slice.enum.foldl
    (fun v ib => (v + ib.2 * 2 ^ (8 * (slice.length - 1 - ib.1))) % 2 ^ 32) 0

/-- Go slice expression `l[a:b]`. -/
def bslice (l : List Nat) (a b : Nat) : List Nat :=
  (l.drop a).take (b - a)

/-- Go `copy(dst[off:], src)`: writes `min (len dst - off) (len src)` bytes of
`src` into `dst` starting at `off`, leaving the rest of `dst` unchanged. -/
def copyAt (dst : List Nat) (off : Nat) (src : List Nat) : List Nat :=
  dst.take off ++ src.take (min (dst.length - off) src.length) ++
    dst.drop (off + min (dst.length - off) src.length)

/-- The 120-byte read buffer of `readWithTimeout` after a successful
`io.ReadAtLeast` that stored `bs`: the bytes read followed by the untouched
zero bytes of `make([]byte, 120)`. -/
def readBuf (bs : List Nat) : List Nat :=
  bs.take 120 ++ List.replicate (120 - bs.length) 0

/-- The per-exchange timeout of `readWithTimeout`, `time.Sleep(2e9)`
nanoseconds. -/
def timeoutNanos : Nat := 2000000000

/-- Errors the query can surface (section 7 of the design):
a failed `port.Write`, the "Timed out." error of `readWithTimeout`, or a
transport-level read error returned by `io.ReadAtLeast`. -/
inductive TracerError where
  | writeFailure
  | timedOut
  | readFailure
deriving DecidableEq, Repr

/-- Outcome of one request write on the transport. -/
inductive WriteOutcome where
  | ok
  | fails
deriving DecidableEq, Repr

/-- Resolution of the race inside `readWithTimeout` between the blocking
`io.ReadAtLeast` and the 2-second timer: either the read finishes first
(with the bytes it stored and whether it returned an error), or the timer
fires first. -/
inductive ReadOutcome where
  | arrives (bytes : List Nat) (readErr : Bool)
  | timesOut
deriving DecidableEq, Repr

/-- Scripted transport behaviour for one exchange. -/
structure ExchangeScript where
  write : WriteOutcome
  read : ReadOutcome
deriving DecidableEq, Repr

/-- Model of `readWithTimeout(port, n)`: the select over the `done` and
`timeout` channels returns whichever of the two resolves first. On a timeout
it returns the "Timed out." error; on a read error it propagates it; on a
successful read it returns the whole 120-byte read buffer. -/
def readWithTimeout (outcome : ReadOutcome) (n : Nat) : Except TracerError (List Nat) :=
  match outcome, n with
  | .timesOut, _ => .error .timedOut
  | .arrives _ true, _ => .error .readFailure
  | .arrives bs false, _ => .ok (readBuf bs)

/-- The exchange loop of `Status` (gotracer.go lines 113-123): for each
command, write its request frame, read the reply with timeout, and copy the
returned read buffer into the logical buffer at the command's offset. Aborts
on the first error. Also counts how many `port.Write` calls were made, to
state the no-further-exchanges properties. -/
def statusLoop (script : Nat → ExchangeScript) :
    List command → Nat → List Nat → Except TracerError (List Nat) × Nat
  | [], _, buf => (.ok buf, 0)
  | c :: cs, i, buf =>
    match (script i).write with
    | .fails => (.error .writeFailure, 1)
    | .ok =>
      match readWithTimeout (script i).read c.respLen with
      | .error e => (.error e, 1)
      | .ok b =>
        let rest := statusLoop script cs (i + 1) (copyAt buf c.offset b)
        (rest.1, rest.2 + 1)

/-- The decoded snapshot (`TracerStatus` in gotracer.go). Field order and
types follow the source; `float32` fields are modelled as exact rationals,
`int32` as `Int`, `time.Time` as a `Nat` timestamp. -/
structure TracerStatus where
  ArrayVoltage : ℚ
  ArrayCurrent : ℚ
  ArrayPower : ℚ
  BatteryVoltage : ℚ
  BatteryCurrent : ℚ
  BatterySOC : ℤ
  BatteryTemp : ℚ
  BatteryMaxVoltage : ℚ
  BatteryMinVoltage : ℚ
  DeviceTemp : ℚ
  LoadVoltage : ℚ
  LoadCurrent : ℚ
  LoadPower : ℚ
  Load : Bool
  EnergyConsumedDaily : ℚ
  EnergyConsumedMonthly : ℚ
  EnergyConsumedAnnual : ℚ
  EnergyConsumedTotal : ℚ
  EnergyGeneratedDaily : ℚ
  EnergyGeneratedMonthly : ℚ
  EnergyGeneratedAnnual : ℚ
  EnergyGeneratedTotal : ℚ
  Timestamp : Nat
deriving DecidableEq

/-- The zero value of `TracerStatus`, which the Go named return `t` still
holds on every early (error) return of `Status`. -/
def zeroStatus : TracerStatus :=
  ⟨0, 0, 0, 0, 0, 0, 0, 0, 0, 0, 0, 0, 0, false, 0, 0, 0, 0, 0, 0, 0, 0, 0⟩

/-- The field-decoding step of `Status` (gotracer.go lines 125-154), run over
the assembled buffer, with `time.Now()` passed in as `now`. -/
def decodeWithTime (now : Nat) (buffer : List Nat) : TracerStatus :=
  let bc : ℚ := (unpack (bslice buffer 73 75) : ℚ)
  let bc : ℚ := if bc > 32768 then bc - 65536 else bc
  { Timestamp := now
    Load := buffer.getD 8 0 == 1
    ArrayVoltage := (unpack (bslice buffer 24 26) : ℚ) / 100
    ArrayCurrent := (unpack (bslice buffer 26 28) : ℚ) / 100
    ArrayPower := (unpack (bslice buffer 28 30) : ℚ) / 100
    BatteryVoltage := (unpack (bslice buffer 32 34) : ℚ) / 100
    LoadVoltage := (unpack (bslice buffer 40 42) : ℚ) / 100
    LoadCurrent := (unpack (bslice buffer 42 44) : ℚ) / 100
    LoadPower := (unpack (bslice buffer 44 46) : ℚ) / 100
    BatteryTemp := (unpack (bslice buffer 56 58) : ℚ) / 100
    DeviceTemp := (unpack (bslice buffer 58 60) : ℚ) / 100
    BatterySOC := (buffer.getD 65 0 : ℤ)
    BatteryCurrent := bc / 100
    BatteryMaxVoltage := (unpack (bslice buffer 82 84) : ℚ) / 100
    BatteryMinVoltage := (unpack (bslice buffer 84 86) : ℚ) / 100
    EnergyConsumedDaily := (unpack (bslice buffer 86 88) : ℚ) / 100
    EnergyConsumedMonthly := (unpack (bslice buffer 88 92) : ℚ) / 100
    EnergyConsumedAnnual := (unpack (bslice buffer 92 96) : ℚ) / 100
    EnergyConsumedTotal := (unpack (bslice buffer 96 100) : ℚ) / 100
    EnergyGeneratedDaily := (unpack (bslice buffer 100 104) : ℚ) / 100
    EnergyGeneratedMonthly := (unpack (bslice buffer 104 108) : ℚ) / 100
    EnergyGeneratedAnnual := (unpack (bslice buffer 108 112) : ℚ) / 100
    EnergyGeneratedTotal := (unpack (bslice buffer 112 116) : ℚ) / 100 }

/-- The whole of `Status` after the transport is open: run the exchange loop
over the frame table starting from the fresh zeroed 120-byte buffer, then on
success decode; on error return the zero-valued snapshot and the error.
Result: (snapshot, error, number of writes made on the transport). -/
def statusGo (now : Nat) (script : Nat → ExchangeScript) :
    TracerStatus × Option TracerError × Nat :=
  match statusLoop script queryStateCommand 0 (List.replicate 120 0) with
  | (.ok buf, w) => (decodeWithTime now buf, none, w)
  | (.error e, w) => (zeroStatus, some e, w)

/-! Helper lemmas about the buffer-copy model. -/

/-- Go copy never changes the destination length. -/
theorem copyAt_length (dst src : List Nat) (off : Nat) :
    (copyAt dst off src).length = dst.length := by
  simp only [copyAt, List.length_append, List.length_take, List.length_drop]
  omega

/-- Bytes strictly below the copy offset are untouched by `copyAt`. -/
theorem copyAt_getElem?_of_lt (dst src : List Nat) (off i : Nat) (h : i < off) :
    (copyAt dst off src)[i]? = dst[i]? := by
  by_cases hoff : off ≤ dst.length
  · have hTake : (dst.take off).length = off := by
      rw [List.length_take, Nat.min_eq_left hoff]
    have h1 : i < (dst.take off).length := by rw [hTake]; exact h
    have h2 : i <
        (dst.take off ++ src.take (min (dst.length - off) src.length)).length := by
      rw [List.length_append, hTake]; omega
    rw [copyAt, List.getElem?_append_left h2, List.getElem?_append_left h1,
      List.getElem?_take]
    simp [h]
  · push_neg at hoff
    have h1 : dst.length - off = 0 := Nat.sub_eq_zero_of_le (le_of_lt hoff)
    rw [copyAt, h1, Nat.zero_min, List.take_zero, Nat.add_zero,
      List.take_of_length_le (le_of_lt hoff), List.drop_eq_nil_of_le (le_of_lt hoff)]
    simp

/-- Byte `off + k` of the copy result is byte `k` of the source, as long as
`k` is inside the copied range. -/
theorem copyAt_getElem?_mid (dst src : List Nat) (off k : Nat)
    (hoff : off ≤ dst.length) (hk1 : k < dst.length - off) (hk2 : k < src.length) :
    (copyAt dst off src)[off + k]? = src[k]? := by
  have hTake : (dst.take off).length = off := by
    rw [List.length_take, Nat.min_eq_left hoff]
  have hmin : min (dst.length - off) src.length ≤ src.length := Nat.min_le_right _ _
  have hTake2 : (src.take (min (dst.length - off) src.length)).length
      = min (dst.length - off) src.length := by
    rw [List.length_take, Nat.min_eq_left hmin]
  have hkn : k < min (dst.length - off) src.length := lt_min hk1 hk2
  have h2 : off + k <
      (dst.take off ++ src.take (min (dst.length - off) src.length)).length := by
    rw [List.length_append, hTake, hTake2]; omega
  have h3 : (dst.take off).length ≤ off + k := by rw [hTake]; omega
  rw [copyAt, List.getElem?_append_left h2, List.getElem?_append_right h3, hTake]
  have h4 : off + k - off = k := by omega
  rw [h4, List.getElem?_take]
  simp [hkn]

/-- The read buffer of a successful exchange is always 120 bytes long. -/
theorem readBuf_length (bs : List Nat) : (readBuf bs).length = 120 := by
  simp only [readBuf, List.length_append, List.length_take, List.length_replicate]
  omega

/-- Inside the reply, the read buffer holds the reply bytes verbatim. -/
theorem readBuf_getElem?_of_lt (bs : List Nat) (k : Nat) (hk : k < bs.length)
    (h120 : bs.length ≤ 120) :
    (readBuf bs)[k]? = bs[k]? := by
  have hTake : (bs.take 120).length = bs.length := by
    rw [List.length_take, Nat.min_eq_right h120]
  have h1 : k < (bs.take 120).length := by rw [hTake]; exact hk
  rw [readBuf, List.getElem?_append_left h1, List.getElem?_take]
  simp [lt_of_lt_of_le hk h120]

/-! The claims. -/

/-- Claim C8: the static command table consists of exactly these five
descriptors in this order — request bytes, declared reply length and buffer
offset — and, being a fixed list the rest of the model only reads, it is
never mutated at runtime. -/
theorem c8_frame_table_wire_format :
    queryStateCommand.length = 5 ∧
    queryStateCommand.getD 0 ⟨[], 0, 0⟩ =
      ⟨[1, 4, 50, 0, 0, 3, 190, 179], 11, 0⟩ ∧
    queryStateCommand.getD 1 ⟨[], 0, 0⟩ =
      ⟨[1, 2, 32, 0, 0, 1, 178, 10], 6, 11⟩ ∧
    queryStateCommand.getD 2 ⟨[], 0, 0⟩ =
      ⟨[1, 67, 49, 0, 0, 27, 10, 242], 51, 17⟩ ∧
    queryStateCommand.getD 3 ⟨[], 0, 0⟩ =
      ⟨[1, 4, 51, 26, 0, 3, 158, 136], 11, 68⟩ ∧
    queryStateCommand.getD 4 ⟨[], 0, 0⟩ =
      ⟨[1, 4, 51, 2, 0, 18, 222, 131], 41, 79⟩ := by
  refine ⟨rfl, rfl, rfl, rfl, rfl, rfl⟩

/-- Forgets the capture timestamp of a snapshot, for comparing decode runs. -/
def eraseTime (t : TracerStatus) : TracerStatus := { t with Timestamp := 0 }

/-- Claim C9: the field-decoding step is deterministic — run twice over the
same assembled buffer (at possibly different clock readings) it produces
identical values for every field except the capture timestamp. -/
theorem c9_decode_deterministic (b : List Nat) (t1 t2 : Nat) :
    eraseTime (decodeWithTime t1 b) = eraseTime (decodeWithTime t2 b) := rfl

/-- Claim C10: the five descriptors' regions tile the 120-byte buffer in
increasing order — each next offset is the previous offset plus its declared
reply length, the last region ending exactly at byte 120 — and a copy at an
offset never touches bytes below that offset, which is what protects the
already-placed earlier regions from the over-long copies of the loop. -/
theorem c10_tiling_invariant :
    (∀ i, i < queryStateCommand.length - 1 →
      (queryStateCommand.getD (i + 1) ⟨[], 0, 0⟩).offset =
        (queryStateCommand.getD i ⟨[], 0, 0⟩).offset +
          (queryStateCommand.getD i ⟨[], 0, 0⟩).respLen) ∧
    (queryStateCommand.getD 4 ⟨[], 0, 0⟩).offset +
      (queryStateCommand.getD 4 ⟨[], 0, 0⟩).respLen = 120 ∧
    (∀ (buf src : List Nat) (off i : Nat), i < off →
      (copyAt buf off src).getD i 0 = buf.getD i 0) := by
  refine ⟨by decide, rfl, ?_⟩
  intro buf src off i h
  rw [List.getD_eq_getElem?_getD, List.getD_eq_getElem?_getD,
    copyAt_getElem?_of_lt _ _ _ _ h]

/-- Witness for C10 at concrete inputs: the second descriptor starts where
the first ends, and a copy at offset 11 leaves byte 3 unchanged. -/
theorem c10_tiling_invariant_witness :
    (queryStateCommand.getD 1 ⟨[], 0, 0⟩).offset =
      (queryStateCommand.getD 0 ⟨[], 0, 0⟩).offset +
        (queryStateCommand.getD 0 ⟨[], 0, 0⟩).respLen ∧
    (copyAt (List.replicate 120 0) 11 [5, 6, 7]).getD 3 0 =
      (List.replicate 120 0).getD 3 0 :=
  ⟨c10_tiling_invariant.1 0 (by decide),
   c10_tiling_invariant.2.2 (List.replicate 120 0) [5, 6, 7] 11 3 (by decide)⟩

/-- Concrete 120-byte buffer, all zero except the two bytes at positions `p`
and `p + 1` (for `p` at most 118). -/
def bufAt (p hi lo : Nat) : List Nat :=
  List.replicate p 0 ++ [hi, lo] ++ List.replicate (118 - p) 0

/-- Claim C2 as stated is false at its own boundary: a buffer whose bytes at
positions 73-74 hold the big-endian raw value 32768 decodes to battery
current +327.68, not -327.68, because the source corrects the sign only when
the raw value strictly exceeds 32768. -/
theorem c2_counterexample :
    (decodeWithTime 0 (bufAt 73 0x80 0x00)).BatteryCurrent ≠ -327.68 ∧
    (decodeWithTime 0 (bufAt 73 0x80 0x00)).BatteryCurrent = 327.68 := by
  have h : unpack (bslice (bufAt 73 0x80 0x00) 73 75) = 32768 := by decide
  constructor <;>
    · simp only [decodeWithTime, h]
      norm_num

/-- Claim C2 (amended): raw value 32768 at bytes 73-74 decodes to battery
current +327.68, since the two's-complement correction applies only to raw
values strictly greater than 32768; raw 32767 decodes to +327.67 and raw 0
to 0; and battery current subtracts 65536 before the division by 100 exactly
when the unpacked raw value exceeds 32768. -/
theorem c2_sign_correction_boundary :
    (decodeWithTime 0 (bufAt 73 0x80 0x00)).BatteryCurrent = 327.68 ∧
    (decodeWithTime 0 (bufAt 73 0x7f 0xff)).BatteryCurrent = 327.67 ∧
    (decodeWithTime 0 (bufAt 73 0x00 0x00)).BatteryCurrent = 0 ∧
    ∀ (b : List Nat) (now : Nat),
      (decodeWithTime now b).BatteryCurrent =
        (if (32768 : ℚ) < (unpack (bslice b 73 75) : ℚ)
          then (unpack (bslice b 73 75) : ℚ) - 65536
          else (unpack (bslice b 73 75) : ℚ)) / 100 := by
  have h1 : unpack (bslice (bufAt 73 0x80 0x00) 73 75) = 32768 := by decide
  have h2 : unpack (bslice (bufAt 73 0x7f 0xff) 73 75) = 32767 := by decide
  have h3 : unpack (bslice (bufAt 73 0x00 0x00) 73 75) = 0 := by decide
  refine ⟨?_, ?_, ?_, fun b now => rfl⟩
  · simp only [decodeWithTime, h1]; norm_num
  · simp only [decodeWithTime, h2]; norm_num
  · simp only [decodeWithTime, h3]; norm_num

/-- Claim C6 as stated is false for the battery-current field: with raw
value 65535 at bytes 73-74 the snapshot stores the sign-corrected -0.01, not
the unpacked raw value divided by 100 (655.35). -/
theorem c6_counterexample :
    (decodeWithTime 0 (bufAt 73 0xff 0xff)).BatteryCurrent ≠
      (unpack (bslice (bufAt 73 0xff 0xff) 73 75) : ℚ) / 100 := by
  have h : unpack (bslice (bufAt 73 0xff 0xff) 73 75) = 65535 := by decide
  simp only [decodeWithTime, h]
  norm_num

/-- Claim C6 (amended): every decoded field except the load flag, the
battery state of charge, and the battery current stores the unpacked
big-endian raw value of its byte range divided by 100; the battery current
stores the sign-corrected raw value divided by 100. A raw value of 1234
under the byte range 24-26 decodes to exactly 12.34. -/
theorem c6_scaling :
    (∀ (b : List Nat) (now : Nat),
      (decodeWithTime now b).ArrayVoltage = (unpack (bslice b 24 26) : ℚ) / 100 ∧
      (decodeWithTime now b).ArrayCurrent = (unpack (bslice b 26 28) : ℚ) / 100 ∧
      (decodeWithTime now b).ArrayPower = (unpack (bslice b 28 30) : ℚ) / 100 ∧
      (decodeWithTime now b).BatteryVoltage = (unpack (bslice b 32 34) : ℚ) / 100 ∧
      (decodeWithTime now b).LoadVoltage = (unpack (bslice b 40 42) : ℚ) / 100 ∧
      (decodeWithTime now b).LoadCurrent = (unpack (bslice b 42 44) : ℚ) / 100 ∧
      (decodeWithTime now b).LoadPower = (unpack (bslice b 44 46) : ℚ) / 100 ∧
      (decodeWithTime now b).BatteryTemp = (unpack (bslice b 56 58) : ℚ) / 100 ∧
      (decodeWithTime now b).DeviceTemp = (unpack (bslice b 58 60) : ℚ) / 100 ∧
      (decodeWithTime now b).BatteryMaxVoltage =
        (unpack (bslice b 82 84) : ℚ) / 100 ∧
      (decodeWithTime now b).BatteryMinVoltage =
        (unpack (bslice b 84 86) : ℚ) / 100 ∧
      (decodeWithTime now b).EnergyConsumedDaily =
        (unpack (bslice b 86 88) : ℚ) / 100 ∧
      (decodeWithTime now b).EnergyConsumedMonthly =
        (unpack (bslice b 88 92) : ℚ) / 100 ∧
      (decodeWithTime now b).EnergyConsumedAnnual =
        (unpack (bslice b 92 96) : ℚ) / 100 ∧
      (decodeWithTime now b).EnergyConsumedTotal =
        (unpack (bslice b 96 100) : ℚ) / 100 ∧
      (decodeWithTime now b).EnergyGeneratedDaily =
        (unpack (bslice b 100 104) : ℚ) / 100 ∧
      (decodeWithTime now b).EnergyGeneratedMonthly =
        (unpack (bslice b 104 108) : ℚ) / 100 ∧
      (decodeWithTime now b).EnergyGeneratedAnnual =
        (unpack (bslice b 108 112) : ℚ) / 100 ∧
      (decodeWithTime now b).EnergyGeneratedTotal =
        (unpack (bslice b 112 116) : ℚ) / 100 ∧
      (decodeWithTime now b).BatteryCurrent =
        (if (32768 : ℚ) < (unpack (bslice b 73 75) : ℚ)
          then (unpack (bslice b 73 75) : ℚ) - 65536
          else (unpack (bslice b 73 75) : ℚ)) / 100) ∧
    (decodeWithTime 0 (bufAt 24 0x04 0xd2)).ArrayVoltage = 12.34 := by
  refine ⟨fun b now =>
    ⟨rfl, rfl, rfl, rfl, rfl, rfl, rfl, rfl, rfl, rfl, rfl, rfl, rfl, rfl, rfl,
     rfl, rfl, rfl, rfl, rfl⟩, ?_⟩
  have h : unpack (bslice (bufAt 24 0x04 0xd2) 24 26) = 1234 := by decide
  simp only [decodeWithTime, h]
  norm_num

/-- The big-endian value of a byte sequence as the specification words it:
byte at index i contributes byte[i] * 2 ^ (8 * (L - 1 - i)) where L is the
length. Stated from the spec, for comparison with the source-derived
`unpack`. -/
def bigEndianSpecValue (slice : List Nat) : Nat :=
  ((List.range slice.length).map
    (fun i => slice.getD i 0 * 2 ^ (8 * (slice.length - 1 - i)))).sum

/-- Claim C3: for every byte sequence of length 1 to 4, `unpack` returns the
big-endian unsigned interpretation — the sum of byte[i] shifted left by
8 * (L - 1 - i) bits — and in particular unpack [0x01, 0x02] = 258 and
unpack [0x00, 0x64] = 100. -/
theorem c3_unpack_big_endian :
    (∀ (slice : List Nat), 1 ≤ slice.length → slice.length ≤ 4 →
      (∀ b ∈ slice, b < 256) → unpack slice = bigEndianSpecValue slice) ∧
    unpack [0x01, 0x02] = 258 ∧ unpack [0x00, 0x64] = 100 := by
  refine ⟨?_, by decide, by decide⟩
  intro slice hlo hhi hb
  rcases slice with _ | ⟨a, _ | ⟨b, _ | ⟨c, _ | ⟨d, _ | ⟨e, rest⟩⟩⟩⟩⟩
  · simp at hlo
  · have ha : a < 256 := hb a (by simp)
    have e1 : unpack [a] = (0 + a * 2 ^ 0) % 2 ^ 32 := rfl
    have e2 : bigEndianSpecValue [a] = a * 2 ^ 0 + 0 := rfl
    rw [e1, e2, show (2 : Nat) ^ 32 = 4294967296 from by norm_num,
      show (2 : Nat) ^ 0 = 1 from by norm_num]
    omega
  · have ha : a < 256 := hb a (by simp)
    have hb2 : b < 256 := hb b (by simp)
    have e1 : unpack [a, b] = ((0 + a * 2 ^ 8) % 2 ^ 32 + b * 2 ^ 0) % 2 ^ 32 := rfl
    have e2 : bigEndianSpecValue [a, b] = a * 2 ^ 8 + (b * 2 ^ 0 + 0) := rfl
    rw [e1, e2, show (2 : Nat) ^ 32 = 4294967296 from by norm_num,
      show (2 : Nat) ^ 8 = 256 from by norm_num,
      show (2 : Nat) ^ 0 = 1 from by norm_num]
    omega
  · have ha : a < 256 := hb a (by simp)
    have hb2 : b < 256 := hb b (by simp)
    have hc : c < 256 := hb c (by simp)
    have e1 : unpack [a, b, c] =
        (((0 + a * 2 ^ 16) % 2 ^ 32 + b * 2 ^ 8) % 2 ^ 32 + c * 2 ^ 0) %
          2 ^ 32 := rfl
    have e2 : bigEndianSpecValue [a, b, c] =
        a * 2 ^ 16 + (b * 2 ^ 8 + (c * 2 ^ 0 + 0)) := rfl
    rw [e1, e2, show (2 : Nat) ^ 32 = 4294967296 from by norm_num,
      show (2 : Nat) ^ 16 = 65536 from by norm_num,
      show (2 : Nat) ^ 8 = 256 from by norm_num,
      show (2 : Nat) ^ 0 = 1 from by norm_num]
    omega
  · have ha : a < 256 := hb a (by simp)
    have hb2 : b < 256 := hb b (by simp)
    have hc : c < 256 := hb c (by simp)
    have hd : d < 256 := hb d (by simp)
    have e1 : unpack [a, b, c, d] =
        ((((0 + a * 2 ^ 24) % 2 ^ 32 + b * 2 ^ 16) % 2 ^ 32 + c * 2 ^ 8) %
          2 ^ 32 + d * 2 ^ 0) % 2 ^ 32 := rfl
    have e2 : bigEndianSpecValue [a, b, c, d] =
        a * 2 ^ 24 + (b * 2 ^ 16 + (c * 2 ^ 8 + (d * 2 ^ 0 + 0))) := rfl
    rw [e1, e2, show (2 : Nat) ^ 32 = 4294967296 from by norm_num,
      show (2 : Nat) ^ 24 = 16777216 from by norm_num,
      show (2 : Nat) ^ 16 = 65536 from by norm_num,
      show (2 : Nat) ^ 8 = 256 from by norm_num,
      show (2 : Nat) ^ 0 = 1 from by norm_num]
    omega
  · simp [List.length_cons] at hhi

/-- Witness for C3 at a concrete three-byte input. -/
theorem c3_unpack_big_endian_witness :
    unpack [0xab, 0xcd, 0xef] = bigEndianSpecValue [0xab, 0xcd, 0xef] :=
  c3_unpack_big_endian.1 [0xab, 0xcd, 0xef] (by decide) (by decide) (by decide)

/-! Lemmas about the exchange loop. -/

/-- A successful exchange loop never changes the buffer's length. -/
theorem statusLoop_ok_length (script : Nat → ExchangeScript) (cs : List command) :
    ∀ (idx : Nat) (buf B : List Nat),
      (statusLoop script cs idx buf).1 = .ok B → B.length = buf.length := by
  induction cs with
  | nil =>
    intro idx buf B h
    simp only [statusLoop] at h
    cases h
    rfl
  | cons c cs ih =>
    intro idx buf B h
    cases hw : (script idx).write with
    | fails => simp [statusLoop, hw] at h
    | ok =>
      cases hr : (script idx).read with
      | timesOut => simp [statusLoop, hw, hr, readWithTimeout] at h
      | arrives bs readErr =>
        cases readErr with
        | true => simp [statusLoop, hw, hr, readWithTimeout] at h
        | false =>
          simp only [statusLoop, hw, hr, readWithTimeout] at h
          have := ih (idx + 1) (copyAt buf c.offset (readBuf bs)) B h
          rw [this, copyAt_length]

/-- If the first `i` exchanges of the loop succeed and the write of exchange
`i` succeeds but its read races to the timer, the loop stops with the
TimedOut error after exactly `i + 1` request writes. -/
theorem statusLoop_timeout (script : Nat → ExchangeScript) (cs : List command) :
    ∀ (i idx : Nat) (buf : List Nat), i < cs.length →
    (∀ j, j < i → (script (idx + j)).write = .ok ∧
      ∃ bs, (script (idx + j)).read = .arrives bs false) →
    (script (idx + i)).write = .ok →
    (script (idx + i)).read = .timesOut →
    statusLoop script cs idx buf = (.error .timedOut, i + 1) := by
  induction cs with
  | nil =>
    intro i idx buf hi
    simp at hi
  | cons c cs ih =>
    intro i idx buf hi hgood hw hr
    cases i with
    | zero =>
      rw [Nat.add_zero] at hw hr
      simp [statusLoop, hw, hr, readWithTimeout]
    | succ i' =>
      obtain ⟨hwj, bs, hrj⟩ := hgood 0 (Nat.succ_pos _)
      rw [Nat.add_zero] at hwj hrj
      have step := ih i' (idx + 1) (copyAt buf c.offset (readBuf bs))
        (by simpa using Nat.lt_of_succ_lt_succ hi)
        (fun j hj => by
          have h := hgood (j + 1) (Nat.succ_lt_succ hj)
          rwa [show idx + (j + 1) = idx + 1 + j by omega] at h)
        (by rwa [show idx + 1 + i' = idx + (i' + 1) by omega])
        (by rwa [show idx + 1 + i' = idx + (i' + 1) by omega])
      simp [statusLoop, hwj, hrj, readWithTimeout, step]

/-- Claim C4: each exchange waits for the read of at least the descriptor's
declared reply length racing a 2-second (2e9 nanoseconds) timer, and takes
whichever resolves first; if any exchange's read loses that race, the whole
query returns the TimedOut error with the zero snapshot, and no later
descriptor's request frame is written — exactly `i + 1` writes reach the
transport when exchange `i` times out. -/
theorem c4_timeout_aborts (script : Nat → ExchangeScript) (now i : Nat)
    (hi : i < queryStateCommand.length)
    (hgood : ∀ j, j < i → (script j).write = .ok ∧
      ∃ bs, (script j).read = .arrives bs false)
    (hw : (script i).write = .ok) (hr : (script i).read = .timesOut) :
    statusGo now script = (zeroStatus, some .timedOut, i + 1) ∧
    timeoutNanos = 2 * 1000000000 := by
  refine ⟨?_, rfl⟩
  have h := statusLoop_timeout script queryStateCommand i 0 (List.replicate 120 0)
    hi (fun j hj => by simpa using hgood j hj) (by simpa using hw)
    (by simpa using hr)
  unfold statusGo
  rw [h]

/-- Witness for C4: a script whose second exchange times out yields the
TimedOut error after exactly two writes. -/
theorem c4_timeout_aborts_witness :
    statusGo 0 (fun j => if j = 0
        then ⟨.ok, .arrives (List.replicate 11 0) false⟩
        else ⟨.ok, .timesOut⟩) =
      (zeroStatus, some .timedOut, 2) ∧
    timeoutNanos = 2 * 1000000000 :=
  c4_timeout_aborts
    (fun j => if j = 0
      then ⟨.ok, .arrives (List.replicate 11 0) false⟩
      else ⟨.ok, .timesOut⟩) 0 1 (by decide)
    (fun j hj => by
      have hj0 : j = 0 := by omega
      subst hj0
      exact ⟨rfl, ⟨List.replicate 11 0, rfl⟩⟩)
    rfl rfl

/-- Claim C5: every error aborts the entire query — whenever `Status`
returns an error, the snapshot it returns alongside is the zero value,
carrying no decoded field values — and a write failure on the first command
aborts before any further command is sent: the transport sees exactly one
write call. -/
theorem c5_error_propagation (script : Nat → ExchangeScript) (now : Nat) :
    (∀ e, (statusGo now script).2.1 = some e →
      (statusGo now script).1 = zeroStatus) ∧
    ((script 0).write = .fails →
      statusGo now script = (zeroStatus, some .writeFailure, 1)) := by
  constructor
  · intro e he
    cases hsl : statusLoop script queryStateCommand 0 (List.replicate 120 0) with
    | mk res w =>
      cases res with
      | ok buf =>
        have hnone : (statusGo now script).2.1 = none := by
          unfold statusGo
          rw [hsl]
        rw [hnone] at he
        simp at he
      | error err =>
        unfold statusGo
        rw [hsl]
  · intro hw
    unfold statusGo
    rw [show statusLoop script queryStateCommand 0 (List.replicate 120 0) =
      (.error .writeFailure, 1) from by simp [statusLoop, queryStateCommand, hw]]

/-- Witness for C5: with a transport whose first write fails, the query
returns the zero snapshot, the write-failure error, and one write call. -/
theorem c5_error_propagation_witness :
    statusGo 0 (fun _ => ⟨.fails, .timesOut⟩) =
      (zeroStatus, some .writeFailure, 1) :=
  (c5_error_propagation (fun _ => ⟨.fails, .timesOut⟩) 0).2 rfl

/-- Claim C1: in every run of the exchange loop in which all five exchanges
succeed and each reply has exactly its descriptor's declared length, the
assembled 120-byte buffer handed to the decoder holds, for every descriptor
and every k below its declared reply length, byte k of that descriptor's
reply at absolute position offset + k. -/
theorem c1_buffer_placement (r0 r1 r2 r3 r4 : List Nat)
    (h0 : r0.length = 11) (h1 : r1.length = 6) (h2 : r2.length = 51)
    (h3 : r3.length = 11) (h4 : r4.length = 41)
    (script : Nat → ExchangeScript)
    (hs0 : script 0 = ⟨.ok, .arrives r0 false⟩)
    (hs1 : script 1 = ⟨.ok, .arrives r1 false⟩)
    (hs2 : script 2 = ⟨.ok, .arrives r2 false⟩)
    (hs3 : script 3 = ⟨.ok, .arrives r3 false⟩)
    (hs4 : script 4 = ⟨.ok, .arrives r4 false⟩) :
    ∃ B : List Nat,
      statusLoop script queryStateCommand 0 (List.replicate 120 0) = (.ok B, 5) ∧
      (∀ k, k < 11 → B.getD (0 + k) 0 = r0.getD k 0) ∧
      (∀ k, k < 6 → B.getD (11 + k) 0 = r1.getD k 0) ∧
      (∀ k, k < 51 → B.getD (17 + k) 0 = r2.getD k 0) ∧
      (∀ k, k < 11 → B.getD (68 + k) 0 = r3.getD k 0) ∧
      (∀ k, k < 41 → B.getD (79 + k) 0 = r4.getD k 0) := by
  have lZ : (List.replicate 120 (0 : Nat)).length = 120 := by simp
  have l0 : (copyAt (List.replicate 120 0) 0 (readBuf r0)).length = 120 := by
    rw [copyAt_length]; exact lZ
  have l1 : (copyAt (copyAt (List.replicate 120 0) 0 (readBuf r0)) 11
      (readBuf r1)).length = 120 := by
    rw [copyAt_length]; exact l0
  have l2 : (copyAt (copyAt (copyAt (List.replicate 120 0) 0 (readBuf r0)) 11
      (readBuf r1)) 17 (readBuf r2)).length = 120 := by
    rw [copyAt_length]; exact l1
  have l3 : (copyAt (copyAt (copyAt (copyAt (List.replicate 120 0) 0
      (readBuf r0)) 11 (readBuf r1)) 17 (readBuf r2)) 68
      (readBuf r3)).length = 120 := by
    rw [copyAt_length]; exact l2
  refine ⟨copyAt (copyAt (copyAt (copyAt (copyAt (List.replicate 120 0) 0
      (readBuf r0)) 11 (readBuf r1)) 17 (readBuf r2)) 68 (readBuf r3)) 79
      (readBuf r4), ?_, ?_, ?_, ?_, ?_, ?_⟩
  · simp [statusLoop, queryStateCommand, hs0, hs1, hs2, hs3, hs4, readWithTimeout]
  · intro k hk
    rw [List.getD_eq_getElem?_getD, List.getD_eq_getElem?_getD,
      copyAt_getElem?_of_lt _ _ _ _ (show 0 + k < 79 by omega),
      copyAt_getElem?_of_lt _ _ _ _ (show 0 + k < 68 by omega),
      copyAt_getElem?_of_lt _ _ _ _ (show 0 + k < 17 by omega),
      copyAt_getElem?_of_lt _ _ _ _ (show 0 + k < 11 by omega),
      copyAt_getElem?_mid _ _ _ _ (Nat.zero_le _) (by rw [lZ]; omega)
        (by rw [readBuf_length]; omega),
      readBuf_getElem?_of_lt _ _ (by rw [h0]; omega) (by rw [h0]; omega)]
  · intro k hk
    rw [List.getD_eq_getElem?_getD, List.getD_eq_getElem?_getD,
      copyAt_getElem?_of_lt _ _ _ _ (show 11 + k < 79 by omega),
      copyAt_getElem?_of_lt _ _ _ _ (show 11 + k < 68 by omega),
      copyAt_getElem?_of_lt _ _ _ _ (show 11 + k < 17 by omega),
      copyAt_getElem?_mid _ _ _ _ (by rw [l0]; omega) (by rw [l0]; omega)
        (by rw [readBuf_length]; omega),
      readBuf_getElem?_of_lt _ _ (by rw [h1]; omega) (by rw [h1]; omega)]
  · intro k hk
    rw [List.getD_eq_getElem?_getD, List.getD_eq_getElem?_getD,
      copyAt_getElem?_of_lt _ _ _ _ (show 17 + k < 79 by omega),
      copyAt_getElem?_of_lt _ _ _ _ (show 17 + k < 68 by omega),
      copyAt_getElem?_mid _ _ _ _ (by rw [l1]; omega) (by rw [l1]; omega)
        (by rw [readBuf_length]; omega),
      readBuf_getElem?_of_lt _ _ (by rw [h2]; omega) (by rw [h2]; omega)]
  · intro k hk
    rw [List.getD_eq_getElem?_getD, List.getD_eq_getElem?_getD,
      copyAt_getElem?_of_lt _ _ _ _ (show 68 + k < 79 by omega),
      copyAt_getElem?_mid _ _ _ _ (by rw [l2]; omega) (by rw [l2]; omega)
        (by rw [readBuf_length]; omega),
      readBuf_getElem?_of_lt _ _ (by rw [h3]; omega) (by rw [h3]; omega)]
  · intro k hk
    rw [List.getD_eq_getElem?_getD, List.getD_eq_getElem?_getD,
      copyAt_getElem?_mid _ _ _ _ (by rw [l3]; omega) (by rw [l3]; omega)
        (by rw [readBuf_length]; omega),
      readBuf_getElem?_of_lt _ _ (by rw [h4]; omega) (by rw [h4]; omega)]

/-- Transport script for the C1 witness: five successful exchanges whose
replies are constant lists of the declared lengths. -/
def c1Script : Nat → ExchangeScript := fun i =>
  if i = 0 then ⟨.ok, .arrives (List.replicate 11 1) false⟩
  else if i = 1 then ⟨.ok, .arrives (List.replicate 6 2) false⟩
  else if i = 2 then ⟨.ok, .arrives (List.replicate 51 3) false⟩
  else if i = 3 then ⟨.ok, .arrives (List.replicate 11 4) false⟩
  else ⟨.ok, .arrives (List.replicate 41 5) false⟩

/-- Witness for C1 at a concrete all-successful run. -/
theorem c1_buffer_placement_witness :
    ∃ B : List Nat,
      statusLoop c1Script queryStateCommand 0 (List.replicate 120 0) =
        (.ok B, 5) ∧
      (∀ k, k < 11 → B.getD (0 + k) 0 = (List.replicate 11 1).getD k 0) ∧
      (∀ k, k < 6 → B.getD (11 + k) 0 = (List.replicate 6 2).getD k 0) ∧
      (∀ k, k < 51 → B.getD (17 + k) 0 = (List.replicate 51 3).getD k 0) ∧
      (∀ k, k < 11 → B.getD (68 + k) 0 = (List.replicate 11 4).getD k 0) ∧
      (∀ k, k < 41 → B.getD (79 + k) 0 = (List.replicate 41 5).getD k 0) :=
  c1_buffer_placement (List.replicate 11 1) (List.replicate 6 2)
    (List.replicate 51 3) (List.replicate 11 4) (List.replicate 41 5)
    (by decide) (by decide) (by decide) (by decide) (by decide)
    c1Script rfl rfl rfl rfl rfl

/-- A two-byte Go slice of a sufficiently long buffer, written as an
explicit pair of its bytes. -/
theorem bslice_pair (b : List Nat) (a : Nat) (h : a + 2 ≤ b.length) :
    bslice b a (a + 2) = [b.getD a 0, b.getD (a + 1) 0] := by
  have h2 : a + 2 - a = 2 := by omega
  rw [bslice, h2]
  have hl : 2 ≤ (b.drop a).length := by rw [List.length_drop]; omega
  rcases hd : b.drop a with _ | ⟨x, _ | ⟨y, t⟩⟩
  · rw [hd] at hl; simp at hl
  · rw [hd] at hl; simp at hl
  · have e0 : b[a]? = some x := by
      have h3 := List.getElem?_drop b a 0
      rw [hd] at h3
      simpa using h3.symm
    have e1 : b[a + 1]? = some y := by
      have h3 := List.getElem?_drop b a 1
      rw [hd] at h3
      simpa using h3.symm
    rw [List.getD_eq_getElem?_getD, List.getD_eq_getElem?_getD, e0, e1]
    simp

/-- Claim C7: if the five replies of a successful run produce an assembled
buffer with byte 8 = 0x01, bytes 24-25 = 0x04 0xD2 and byte 65 = 0x50, the
snapshot decodes Load = true, ArrayVoltage = 12.34 and BatterySOC = 80; and
on any buffer the load flag is exactly the byte at position 8 compared for
equality to 1 (any other value yields false, with no error) while
BatterySOC is the raw unscaled byte at position 65. -/
theorem c7_end_to_end :
    (∀ (script : Nat → ExchangeScript) (B : List Nat) (now : Nat),
      statusLoop script queryStateCommand 0 (List.replicate 120 0) =
        (.ok B, 5) →
      B.getD 8 0 = 0x01 → B.getD 24 0 = 0x04 → B.getD 25 0 = 0xd2 →
      B.getD 65 0 = 0x50 →
      (decodeWithTime now B).Load = true ∧
      (decodeWithTime now B).ArrayVoltage = 12.34 ∧
      (decodeWithTime now B).BatterySOC = 80) ∧
    (∀ (b : List Nat) (now : Nat),
      (decodeWithTime now b).Load = (b.getD 8 0 == 1) ∧
      (decodeWithTime now b).BatterySOC = (b.getD 65 0 : ℤ)) := by
  constructor
  · intro script B now hrun h8 h24 h25 h65
    have hlen : B.length = 120 := by
      have h := statusLoop_ok_length script queryStateCommand 0
        (List.replicate 120 0) B (by rw [hrun])
      simpa using h
    have hb : bslice B 24 26 = [4, 210] := by
      have h := bslice_pair B 24 (by omega)
      norm_num at h
      rw [List.getD_eq_getElem?_getD] at h24 h25
      rw [h, h24, h25]
    refine ⟨?_, ?_, ?_⟩
    · show (B.getD 8 0 == 1) = true
      rw [h8]
      rfl
    · show (unpack (bslice B 24 26) : ℚ) / 100 = 12.34
      rw [hb, show unpack [4, 210] = 1234 from by decide]
      norm_num
    · show (B.getD 65 0 : ℤ) = 80
      rw [h65]
      norm_num
  · intro b now
    exact ⟨rfl, rfl⟩

/-- First canned reply for the C7 witness: 11 bytes with byte 8 = 1. -/
def c7Reply0 : List Nat := List.replicate 8 0 ++ [1] ++ List.replicate 2 0

/-- Third canned reply for the C7 witness: 51 bytes carrying 0x04 0xD2 at
buffer positions 24-25 and 0x50 at buffer position 65. -/
def c7Reply2 : List Nat :=
  List.replicate 7 0 ++ [4, 210] ++ List.replicate 39 0 ++ [80] ++
    List.replicate 2 0

/-- Transport script for the C7 witness. -/
def c7Script : Nat → ExchangeScript := fun i =>
  if i = 0 then ⟨.ok, .arrives c7Reply0 false⟩
  else if i = 1 then ⟨.ok, .arrives (List.replicate 6 0) false⟩
  else if i = 2 then ⟨.ok, .arrives c7Reply2 false⟩
  else if i = 3 then ⟨.ok, .arrives (List.replicate 11 0) false⟩
  else ⟨.ok, .arrives (List.replicate 41 0) false⟩

/-- The buffer the C7 witness run assembles. -/
def c7Buffer : List Nat :=
  c7Reply0 ++ List.replicate 6 0 ++ c7Reply2 ++ List.replicate 11 0 ++
    List.replicate 41 0

set_option maxRecDepth 100000 in
/-- Witness for C7 at a concrete five-reply run. -/
theorem c7_end_to_end_witness :
    (decodeWithTime 0 c7Buffer).Load = true ∧
    (decodeWithTime 0 c7Buffer).ArrayVoltage = 12.34 ∧
    (decodeWithTime 0 c7Buffer).BatterySOC = 80 :=
  c7_end_to_end.1 c7Script c7Buffer 0 (by rfl) (by decide) (by decide)
    (by decide) (by decide)

end Gotracer
